import Mathlib

/-!
# OTAShip — verification of the protocol and storage core

A shallow embedding, in Lean 4, of the OTAShip Go backend's protocol and
storage core: the hasher (`services.ComputeSHA256Hash`, `Base64URLEncode`),
the rollout selector (`services.RolloutService`), the metadata store queries
(`database.UpdateRepository`), the manifest endpoint
(`handlers.ManifestHandler.Handle`), the asset endpoint
(`handlers.AssetsHandler.Handle`) and the admin surface
(`handlers.AdminHandler`).  Go byte slices are `List Nat` (entries < 256),
Go strings are Lean `String`s (Go `range` over a string iterates runes,
which matches iterating a Lean string's characters), machine integers are
`Nat`/`Int` with explicit `% 2 ^ 32` where overflow matters, and
`time.Time` values are milliseconds since the Unix epoch (`Nat`; every
`CreatedAt` in the system is produced by `time.Now()` at insert time, hence
after 1970).
-/

namespace OTAShip

/-! ## Hasher (Go `services`: `ComputeSHA256Hash`, `ComputeSHA256HashBytes`,
`Base64URLEncode`)

`crypto/sha256` is embedded directly (FIPS 180-4 over `Nat` with explicit
`% 2 ^ 32`); the claims about the hasher only depend on the digest being a
list of 32 bytes, which holds by construction of the serialization. -/

/-- Truncate to a 32-bit word. -/
def w32 (x : Nat) : Nat := x % 4294967296

/-- 32-bit rotate right by `n` (for `x < 2 ^ 32`). -/
def rotr32 (n x : Nat) : Nat := x / 2 ^ n + x % 2 ^ n * 2 ^ (32 - n)

/-- Right shift by `n`. -/
def shr (n x : Nat) : Nat := x / 2 ^ n

/-- 32-bit complement (for `x < 2 ^ 32`). -/
def not32 (x : Nat) : Nat := 4294967295 - x

/-- The SHA-256 round constants (FIPS 180-4, in decimal). -/
def shaK : List Nat :=
  [1116352408, 1899447441, 3049323471, 3921009573, 961987163, 1508970993,
   2453635748, 2870763221, 3624381080, 310598401, 607225278, 1426881987,
   1925078388, 2162078206, 2614888103, 3248222580, 3835390401, 4022224774,
   264347078, 604807628, 770255983, 1249150122, 1555081692, 1996064986,
   2554220882, 2821834349, 2952996808, 3210313671, 3336571891, 3584528711,
   113926993, 338241895, 666307205, 773529912, 1294757372, 1396182291,
   1695183700, 1986661051, 2177026350, 2456956037, 2730485921, 2820302411,
   3259730800, 3345764771, 3516065817, 3600352804, 4094571909, 275423344,
   430227734, 506948616, 659060556, 883997877, 958139571, 1322822218,
   1537002063, 1747873779, 1955562222, 2024104815, 2227730452, 2361852424,
   2428436474, 2756734187, 3204031479, 3329325298]

/-- SHA-256 working state (eight 32-bit words). -/
structure Sha2State where
  a : Nat
  b : Nat
  c : Nat
  d : Nat
  e : Nat
  f : Nat
  g : Nat
  h : Nat

/-- The SHA-256 initial hash value (FIPS 180-4, in decimal). -/
def shaInit : Sha2State :=
  ⟨1779033703, 3144134277, 1013904242, 2773480762,
   1359893119, 2600822924, 528734635, 1541459225⟩

/-- The eight big-endian bytes of a 64-bit length field. -/
def lenBytes64 (n : Nat) : List Nat :=
  [n / 2 ^ 56 % 256, n / 2 ^ 48 % 256, n / 2 ^ 40 % 256, n / 2 ^ 32 % 256,
   n / 2 ^ 24 % 256, n / 2 ^ 16 % 256, n / 2 ^ 8 % 256, n % 256]

/-- SHA-256 padding: `0x80`, zeros to 56 mod 64, then the bit length. -/
def padMessage (m : List Nat) : List Nat :=
  m ++ 128 :: List.replicate ((119 - m.length % 64) % 64) 0 ++ lenBytes64 (8 * m.length)

/-- A big-endian 32-bit word from a list of bytes. -/
def be32 (l : List Nat) : Nat := l.foldl (fun acc b => acc * 256 + b) 0

/-- The sixteen 32-bit words of a 64-byte block. -/
def blockWords (block : List Nat) : List Nat :=
  (List.range 16).map (fun i => be32 ((block.drop (4 * i)).take 4))

/-- Extend 16 message words to the 64-word message schedule. -/
def shaSchedule (initial : List Nat) : List Nat :=
  (List.range 48).foldl
    (fun w _ =>
      let n := w.length
      let x15 := w.getD (n - 15) 0
      let x2 := w.getD (n - 2) 0
      let s0 := rotr32 7 x15 ^^^ rotr32 18 x15 ^^^ shr 3 x15
      let s1 := rotr32 17 x2 ^^^ rotr32 19 x2 ^^^ shr 10 x2
      w ++ [w32 (w.getD (n - 16) 0 + s0 + w.getD (n - 7) 0 + s1)])
    initial

/-- One SHA-256 round. -/
def shaRound (st : Sha2State) (kw : Nat × Nat) : Sha2State :=
  let s1 := rotr32 6 st.e ^^^ rotr32 11 st.e ^^^ rotr32 25 st.e
  let ch := st.e &&& st.f ^^^ not32 st.e &&& st.g
  let t1 := w32 (st.h + s1 + ch + kw.1 + kw.2)
  let s0 := rotr32 2 st.a ^^^ rotr32 13 st.a ^^^ rotr32 22 st.a
  let maj := st.a &&& st.b ^^^ st.a &&& st.c ^^^ st.b &&& st.c
  let t2 := w32 (s0 + maj)
  ⟨w32 (t1 + t2), st.a, st.b, st.c, w32 (st.d + t1), st.e, st.f, st.g⟩

/-- SHA-256 compression of one 64-byte block into the chaining state. -/
def shaCompress (st : Sha2State) (block : List Nat) : Sha2State :=
  let fin := (shaK.zip (shaSchedule (blockWords block))).foldl shaRound st
  ⟨w32 (st.a + fin.a), w32 (st.b + fin.b), w32 (st.c + fin.c), w32 (st.d + fin.d),
   w32 (st.e + fin.e), w32 (st.f + fin.f), w32 (st.g + fin.g), w32 (st.h + fin.h)⟩

/-- The four big-endian bytes of a 32-bit word. -/
def word4 (w : Nat) : List Nat := [w / 2 ^ 24 % 256, w / 2 ^ 16 % 256, w / 2 ^ 8 % 256, w % 256]

/-- Go `sha256.Sum256` (and `services.ComputeSHA256HashBytes`): the 32-byte
SHA-256 digest of a byte sequence. -/
def sha256Bytes (m : List Nat) : List Nat :=
  let padded := padMessage m
  let fin := (List.range (padded.length / 64)).foldl
    (fun st i => shaCompress st ((padded.drop (64 * i)).take 64)) shaInit
  word4 fin.a ++ word4 fin.b ++ word4 fin.c ++ word4 fin.d ++
    word4 fin.e ++ word4 fin.f ++ word4 fin.g ++ word4 fin.h

/-- The lowercase hex digit of `n < 16` (as printed by Go's `%x`). -/
def hexDigit (n : Nat) : Char := if n < 10 then Char.ofNat (48 + n) else Char.ofNat (87 + n)

/-- The value of a lowercase hex digit. -/
def hexVal (c : Char) : Nat := if c.toNat ≥ 97 then c.toNat - 87 else c.toNat - 48

/-- Lowercase hex of a byte list, two characters per byte (Go `fmt.Sprintf("%x", …)`). -/
def hexChars (l : List Nat) : List Char := l.flatMap (fun b => [hexDigit (b / 16), hexDigit (b % 16)])

/-- Decode a hex character list back to bytes (pairs of digits). -/
def hexDecode : List Char → List Nat
  | c1 :: c2 :: rest => (hexVal c1 * 16 + hexVal c2) :: hexDecode rest
  | _ => []

/-- Go `services.ComputeSHA256Hash`: `fmt.Sprintf("%x", sha256.Sum256(data))`,
the 64-character lowercase hex of the digest. -/
def ComputeSHA256Hash (data : List Nat) : String := String.mk (hexChars (sha256Bytes data))

/-- The character of a 6-bit value in the URL-safe base64 alphabet. -/
def b64Char (n : Nat) : Char :=
  if n < 26 then Char.ofNat (65 + n)
  else if n < 52 then Char.ofNat (97 + (n - 26))
  else if n < 62 then Char.ofNat (48 + (n - 52))
  else if n = 62 then '-' else '_'

/-- The 6-bit value of a URL-safe base64 character. -/
def b64Val (c : Char) : Nat :=
  if c = '-' then 62
  else if c = '_' then 63
  else if c.toNat ≥ 97 then c.toNat - 71
  else if c.toNat ≥ 65 then c.toNat - 65
  else c.toNat + 4

/-- Unpadded URL-safe base64 of a byte list (Go `base64.RawURLEncoding.EncodeToString`). -/
def b64Chars : List Nat → List Char
  | [] => []
  | [a] => [b64Char (a / 4), b64Char (a % 4 * 16)]
  | [a, b] => [b64Char (a / 4), b64Char (a % 4 * 16 + b / 16), b64Char (b % 16 * 4)]
  | a :: b :: c :: t =>
      b64Char (a / 4) :: b64Char (a % 4 * 16 + b / 16) ::
        b64Char (b % 16 * 4 + c / 64) :: b64Char (c % 64) :: b64Chars t

/-- Decode an unpadded URL-safe base64 character list back to bytes. -/
def b64Decode : List Char → List Nat
  | [c1, c2] => [b64Val c1 * 4 + b64Val c2 / 16]
  | [c1, c2, c3] => [b64Val c1 * 4 + b64Val c2 / 16, b64Val c2 % 16 * 16 + b64Val c3 / 4]
  | c1 :: c2 :: c3 :: c4 :: t =>
      (b64Val c1 * 4 + b64Val c2 / 16) :: (b64Val c2 % 16 * 16 + b64Val c3 / 4) ::
        (b64Val c3 % 4 * 64 + b64Val c4) :: b64Decode t
  | _ => []

/-- Go `services.Base64URLEncode`: URL-safe base64 without padding. -/
def Base64URLEncode (data : List Nat) : String := String.mk (b64Chars data)

/-! ## Rollout selector (Go `services.RolloutService`)

The pseudo-random fallback draw `r.rng.Intn(100)` is passed in as the
`rngDraw` argument (the Go RNG is process-global state; the claims only
concern the deterministic paths). -/

/-- Sum of the rune (Unicode code point) values of a string: Go
`for _, c := range deviceHash { hashSum += int(c) }`. -/
def runeSum (s : String) : Nat := (s.data.map Char.toNat).sum

/-- Go `RolloutService.deterministicRollout`: bucket by rune sum mod 100. -/
def deterministicRollout (percentage : Int) (deviceHash : String) : Bool :=
  decide (((runeSum deviceHash % 100 : Nat) : Int) < percentage)

/-- Go `RolloutService.ShouldReceiveUpdate`. -/
def ShouldReceiveUpdate (rngDraw : Nat) (percentage : Int) (deviceHash : String) : Bool :=
  if percentage ≥ 100 then true
  else if percentage ≤ 0 then false
  else if deviceHash ≠ "" then deterministicRollout percentage deviceHash
  else decide (((rngDraw % 100 : Nat) : Int) < percentage)

/-- Go `services.CalculateRolloutBucket`: the debugging companion. -/
def CalculateRolloutBucket (deviceHash : String) : Nat := runeSum deviceHash % 100

/-- The UTF-8 encoding of one character, as byte values. -/
def utf8CharBytes (c : Char) : List Nat :=
  let n := c.toNat
  if n < 128 then [n]
  else if n < 2048 then [192 + n / 64, 128 + n % 64]
  else if n < 65536 then [224 + n / 4096, 128 + n / 64 % 64, 128 + n % 64]
  else [240 + n / 262144, 128 + n / 4096 % 64, 128 + n / 64 % 64, 128 + n % 64]

/-- Modelled from the spec (the spec's rollout formula, for comparison with
the source's `deterministicRollout`): "compute the sum of its byte values
modulo 100" — the sum of the UTF-8 bytes of the fingerprint. -/
def specByteSum (s : String) : Nat := (s.data.flatMap utf8CharBytes).sum

/-! ## Shared utilities: Go `strconv.Atoi` and `time.Format` -/

/-- Parse a non-empty all-digit character list (`none` on any non-digit). -/
def parseDigits (l : List Char) : Option Nat :=
  if l.isEmpty then none
  else l.foldl
    (fun acc c => match acc with
      | none => none
      | some n => if c.isDigit then some (n * 10 + (c.toNat - 48)) else none)
    (some 0)

/-- Go `strconv.Atoi` with the error ignored, as the handlers use it: the
parsed integer, or `0` when the string is not a valid integer.  (The Go
int64 overflow clamp is not modelled; no claim involves such headers.) -/
def goAtoi (s : String) : Int :=
  match s.data with
  | '-' :: rest => ((parseDigits rest).map (fun n => -(n : Int))).getD 0
  | '+' :: rest => ((parseDigits rest).map (fun n => (n : Int))).getD 0
  | l => ((parseDigits l).map (fun n => (n : Int))).getD 0

/-- Zero-pad to two digits. -/
def pad2 (n : Nat) : String := if n < 10 then "0" ++ toString n else toString n

/-- Zero-pad to three digits. -/
def pad3 (n : Nat) : String :=
  if n < 10 then "00" ++ toString n
  else if n < 100 then "0" ++ toString n
  else toString n

/-- Zero-pad to four digits. -/
def pad4 (n : Nat) : String :=
  if n < 10 then "000" ++ toString n
  else if n < 100 then "00" ++ toString n
  else if n < 1000 then "0" ++ toString n
  else toString n

/-- Proleptic Gregorian (year, month, day) from days since 1970-01-01. -/
def civilFromDays (days : Nat) : Nat × Nat × Nat :=
  let z := days + 719468
  let era := z / 146097
  let doe := z % 146097
  let yoe := (doe - doe / 1460 + doe / 36524 - doe / 146096) / 365
  let y := yoe + era * 400
  let doy := doe - (365 * yoe + yoe / 4 - yoe / 100)
  let mp := (5 * doy + 2) / 153
  let d := doy - (153 * mp + 2) / 5 + 1
  let m := if mp < 10 then mp + 3 else mp - 9
  (if m ≤ 2 then y + 1 else y, m, d)

/-- Go `t.UTC().Format("2006-01-02T15:04:05.000Z")` on a UTC time given as
milliseconds since the Unix epoch: `YYYY-MM-DDTHH:MM:SS.sssZ`. -/
def formatTimeMillis (ms : Nat) : String :=
  let ymd := civilFromDays (ms / 86400000)
  let rem := ms % 86400000
  pad4 ymd.1 ++ "-" ++ pad2 ymd.2.1 ++ "-" ++ pad2 ymd.2.2 ++ "T" ++
    pad2 (rem / 3600000) ++ ":" ++ pad2 (rem % 3600000 / 60000) ++ ":" ++
    pad2 (rem % 60000 / 1000) ++ "." ++ pad3 (rem % 1000) ++ "Z"

/-! ## Hasher round-trip lemmas -/

/-- Every byte of a serialized 32-bit word is below 256. -/
theorem word4_lt (w : Nat) : ∀ x ∈ word4 w, x < 256 := by
  intro x hx
  simp only [word4, List.mem_cons, List.not_mem_nil, or_false] at hx
  rcases hx with h | h | h | h <;> omega

/-- Every entry of a SHA-256 digest is a byte. -/
theorem sha256Bytes_lt (m : List Nat) : ∀ x ∈ sha256Bytes m, x < 256 := by
  intro x hx
  simp only [sha256Bytes, List.mem_append] at hx
  rcases hx with ((((((h | h) | h) | h) | h) | h) | h) | h <;> exact word4_lt _ x h

/-- A SHA-256 digest has 32 bytes. -/
theorem sha256Bytes_length (m : List Nat) : (sha256Bytes m).length = 32 := by
  simp [sha256Bytes, word4]

/-- Hex digits decode back to their value. -/
theorem hexVal_hexDigit : ∀ n, n < 16 → hexVal (hexDigit n) = n := by decide

/-- Hex decoding inverts hex encoding on byte lists. -/
theorem hexDecode_hexChars : ∀ l : List Nat, (∀ x ∈ l, x < 256) → hexDecode (hexChars l) = l := by
  intro l
  induction l with
  | nil => intro _; rfl
  | cons b t ih =>
    intro h
    have hb : b < 256 := h b (by simp)
    have h1 : hexVal (hexDigit (b / 16)) = b / 16 := hexVal_hexDigit _ (by omega)
    have h2 : hexVal (hexDigit (b % 16)) = b % 16 := hexVal_hexDigit _ (by omega)
    simp only [hexChars, List.flatMap_cons, List.cons_append, List.nil_append, hexDecode]
    rw [h1, h2]
    refine congrArg₂ _ (by omega) ?_
    exact ih (fun x hx => h x (by simp [hx]))

/-- Taking `2 * n` hex characters is encoding the first `n` bytes. -/
theorem hexChars_take : ∀ (l : List Nat) (n : Nat),
    (hexChars l).take (2 * n) = hexChars (l.take n) := by
  intro l
  induction l with
  | nil => intro n; simp [hexChars]
  | cons b t ih =>
    intro n
    cases n with
    | zero => simp [hexChars]
    | succ m =>
      have h2 : 2 * (m + 1) = 2 * m + 1 + 1 := by omega
      simp only [hexChars, List.flatMap_cons, List.cons_append, List.nil_append, h2,
        List.take_succ_cons]
      rw [← hexChars, ← hexChars, ih]

/-- URL-safe base64 characters decode back to their 6-bit value. -/
theorem b64Val_b64Char : ∀ n, n < 64 → b64Val (b64Char n) = n := by decide

/-- Base64url decoding inverts base64url encoding on byte lists. -/
theorem b64Decode_b64Chars : ∀ l : List Nat, (∀ x ∈ l, x < 256) → b64Decode (b64Chars l) = l := by
  intro l
  induction l using b64Chars.induct with
  | case1 => intro _; rfl
  | case2 a =>
    intro h
    have ha : a < 256 := h a (by simp)
    simp only [b64Chars, b64Decode]
    rw [b64Val_b64Char _ (by omega), b64Val_b64Char _ (by omega)]
    refine congrArg₂ _ (by omega) rfl
  | case3 a b =>
    intro h
    have ha : a < 256 := h a (by simp)
    have hb : b < 256 := h b (by simp)
    simp only [b64Chars, b64Decode]
    rw [b64Val_b64Char _ (by omega), b64Val_b64Char _ (by omega), b64Val_b64Char _ (by omega)]
    refine congrArg₂ _ (by omega) (congrArg₂ _ (by omega) rfl)
  | case4 a b c t ih =>
    intro h
    have ha : a < 256 := h a (by simp)
    have hb : b < 256 := h b (by simp)
    have hc : c < 256 := h c (by simp)
    simp only [b64Chars, b64Decode]
    rw [b64Val_b64Char _ (by omega), b64Val_b64Char _ (by omega),
      b64Val_b64Char _ (by omega), b64Val_b64Char _ (by omega)]
    refine congrArg₂ _ (by omega) (congrArg₂ _ (by omega) (congrArg₂ _ (by omega) ?_))
    exact ih (fun x hx => h x (by simp [hx]))

/-! ## Data model (Go `models`)

`time.Time` is milliseconds since the Unix epoch; a Mongo `ObjectID` is its
hex string; Go `nil` sub-documents are `Option`.  JSON documents are a small
AST; Go marshals `map[string]interface{}` with sorted keys, but since JSON
object key order is immaterial to the protocol, objects here keep the order
of the Go composite literals that build them. -/

/-- A JSON document. -/
inductive Json where
  | null
  | bool (b : Bool)
  | num (n : Int)
  | str (s : String)
  | arr (xs : List Json)
  | obj (fields : List (String × Json))

/-- Go `models.Asset`. -/
structure Asset where
  path : String
  ext : String
  url : String
  key : String
  hash : String
  deriving DecidableEq, Repr

/-- Go `models.PlatformMetadata`. -/
structure PlatformMetadata where
  bundle : String
  bundleUrl : String
  bundleKey : String
  bundleHash : String
  assets : List Asset
  deriving DecidableEq, Repr

/-- Go `models.UpdateMetadata` (the free-form `ExpoConfig` object is a JSON
value; `none` is Go `nil`). -/
structure UpdateMetadata where
  fileMetadata : List (String × PlatformMetadata)
  expoConfig : Option Json

/-- Go `models.Update`. -/
structure Update where
  id : String
  projectSlug : String
  updateID : String
  runtimeVersion : String
  channel : String
  platform : String
  bundlePath : String
  createdAt : Nat
  isActive : Bool
  isRollback : Bool
  rolloutPercentage : Int
  downloads : Int
  metadata : Option UpdateMetadata

/-- Association-list lookup (Go map indexing / Mongo key lookup). -/
def lookupStr {α : Type} (l : List (String × α)) (k : String) : Option α :=
  (l.find? (fun p => p.1 == k)).map (fun p => p.2)

/-- A flat filesystem: path to file bytes. -/
abbrev FileSystem := List (String × List Nat)

/-- Go `os.ReadFile` against a modelled filesystem. -/
def fsRead (fs : FileSystem) (path : String) : Option (List Nat) := lookupStr fs path

/-! ## Metadata store (Go `database.UpdateRepository`)

The Mongo collection is a `List Update`; `FindOne` with
`sort {createdAt: -1}` is "first record of maximal `createdAt`" (Mongo
leaves tie order unspecified; this model keeps the earliest inserted). -/

/-- The filter document of `UpdateRepository.FindLatest`: equality on
`projectSlug`, `runtimeVersion`, `channel`, `isActive=true`, and — only when
the requested platform is non-empty — `platform ∈ {requested, "all"}`. -/
def matchesLatestFilter (projectSlug runtimeVersion channel platform : String) (u : Update) : Bool :=
  u.projectSlug == projectSlug && u.runtimeVersion == runtimeVersion &&
    u.channel == channel && u.isActive &&
    (platform == "" || (u.platform == platform || u.platform == "all"))

/-- First element of maximal `createdAt` (the `FindOne` + descending sort). -/
def maxByCreatedAt : List Update → Option Update
  | [] => none
  | u :: t =>
    match maxByCreatedAt t with
    | none => some u
    | some v => if v.createdAt > u.createdAt then some v else some u

/-- Go `UpdateRepository.FindLatest`. -/
def FindLatest (store : List Update) (projectSlug runtimeVersion channel platform : String) :
    Option Update :=
  maxByCreatedAt (store.filter (matchesLatestFilter projectSlug runtimeVersion channel platform))

/-- Go `UpdateRepository.Create`: stamp `createdAt`, default a zero rollout
percentage to 100 and an empty channel to `production`. -/
def repoCreate (now : Nat) (u : Update) : Update :=
  { u with
    createdAt := now
    rolloutPercentage := if u.rolloutPercentage = 0 then 100 else u.rolloutPercentage
    channel := if u.channel = "" then "production" else u.channel }

/-- Go `UpdateRepository.SetRollout`: clamp into [0, 100], then `$set`.
(No handler in the source ever calls this; the admin PATCH path goes through
the generic `UpdateRepository.Update` instead.) -/
def SetRollout (u : Update) (percentage : Int) : Update :=
  let p1 := if percentage < 0 then (0 : Int) else percentage
  let p2 := if p1 > 100 then (100 : Int) else p1
  { u with rolloutPercentage := p2 }

/-- `maxByCreatedAt` is `none` only on the empty list. -/
theorem maxByCreatedAt_eq_none : ∀ l : List Update, maxByCreatedAt l = none → l = [] := by
  intro l h
  cases l with
  | nil => rfl
  | cons v t =>
    cases hm : maxByCreatedAt t with
    | none => simp only [maxByCreatedAt, hm] at h; exact absurd h (by simp)
    | some w =>
      simp only [maxByCreatedAt, hm] at h
      split at h <;> exact absurd h (by simp)

/-- The result of `maxByCreatedAt` is an element of the list. -/
theorem maxByCreatedAt_mem : ∀ (l : List Update) (u : Update),
    maxByCreatedAt l = some u → u ∈ l := by
  intro l
  induction l with
  | nil => intro u h; exact absurd h (by simp [maxByCreatedAt])
  | cons v t ih =>
    intro u h
    cases hm : maxByCreatedAt t with
    | none =>
      simp only [maxByCreatedAt, hm] at h
      obtain rfl := Option.some.inj h
      exact List.mem_cons_self _ _
    | some w =>
      simp only [maxByCreatedAt, hm] at h
      split at h
      · obtain rfl := Option.some.inj h
        exact List.mem_cons_of_mem _ (ih _ hm)
      · obtain rfl := Option.some.inj h
        exact List.mem_cons_self _ _

/-- The result of `maxByCreatedAt` has maximal `createdAt`. -/
theorem maxByCreatedAt_ge : ∀ (l : List Update) (u : Update),
    maxByCreatedAt l = some u → ∀ v ∈ l, v.createdAt ≤ u.createdAt := by
  intro l
  induction l with
  | nil => intro u h; exact absurd h (by simp [maxByCreatedAt])
  | cons v t ih =>
    intro u h w hw
    cases hm : maxByCreatedAt t with
    | none =>
      have ht : t = [] := maxByCreatedAt_eq_none t hm
      subst ht
      simp only [maxByCreatedAt] at h
      obtain rfl := Option.some.inj h
      rcases List.mem_cons.mp hw with h1 | h1
      · subst h1; exact le_refl _
      · exact absurd h1 (List.not_mem_nil _)
    | some x =>
      simp only [maxByCreatedAt, hm] at h
      split at h <;> rename_i hgt <;> obtain rfl := Option.some.inj h <;>
        rcases List.mem_cons.mp hw with h1 | h1
      · subst h1; omega
      · exact ih _ hm _ h1
      · subst h1; exact le_refl _
      · have := ih _ hm _ h1; omega

/-! ## HTTP responses

Outcomes of the handlers.  A multipart reply is modelled structurally: its
one part's name, the part's JSON body, whether an `expo-signature` part
header was attached, and the echoed `expo-protocol-version`.  (The RSA
signature bytes themselves and the multipart boundary framing are not
modelled; no claim concerns them.) -/

/-- An HTTP response of the server. -/
inductive HttpResponse where
  | json (status : Nat) (body : Json)
  | multipart (status : Nat) (partName : String) (body : Json) (signed : Bool)
      (protocolVersion : Int)
  | redirect (status : Nat) (location : String)
  | fileStream (status : Nat) (contentType : String) (path : String)

/-- `c.JSON(status, gin.H{"error": msg})`. -/
def errJson (status : Nat) (msg : String) : HttpResponse :=
  .json status (.obj [("error", .str msg)])

/-! ## Manifest endpoint (Go `handlers.ManifestHandler`) -/

/-- Process-wide server state the manifest handler reads: the configured
hostname, whether the Mongo repositories are non-nil, whether the signing
key is loaded, the updates directory, the local filesystem (byte files),
and the parsed contents of any readable `expoConfig.json` files (modelling
`os.ReadFile` + `json.Unmarshal` in `getExpoConfig`). -/
structure ServerEnv where
  hostname : String
  dbConnected : Bool
  signerLoaded : Bool
  updatesDir : String
  fs : FileSystem
  expoConfigFiles : List (String × Json)

/-- The inputs `ManifestHandler.Handle` reads from an HTTP request.  A Gin
header or query that is absent reads as `""`. -/
structure ManifestRequest where
  method : String
  protocolVersionHeader : String
  platformHeader : String
  platformQuery : String
  runtimeVersionHeader : String
  runtimeVersionQuery : String
  channelHeader : String
  currentUpdateID : String
  embeddedUpdateID : String
  expectSignature : String
  projectSlug : String

/-- `ManifestHandler.handleNoUpdateAvailable`. -/
def handleNoUpdateAvailable (env : ServerEnv) (req : ManifestRequest)
    (protocolVersion : Int) : HttpResponse :=
  if protocolVersion = 0 then errJson 404 "No update available"
  else
    .multipart 200 "directive" (.obj [("type", .str "noUpdateAvailable")])
      (req.expectSignature ≠ "" && env.signerLoaded) protocolVersion

/-- The `ext`-switch of `getAssetInfoFromMetadataOrFile` (non-launch assets;
note it has no `webp`/`json`/`js` arms, unlike the asset endpoint's). -/
def manifestContentType (ext : String) : String :=
  match ext with
  | "png" => "image/png"
  | "jpg" | "jpeg" => "image/jpeg"
  | "gif" => "image/gif"
  | "svg" => "image/svg+xml"
  | "ttf" => "font/ttf"
  | "otf" => "font/otf"
  | "woff" => "font/woff"
  | "woff2" => "font/woff2"
  | _ => "application/octet-stream"

/-- Go `filepath.Join` on Unix, restricted to the clean relative arguments
this codebase passes (no separate lexical cleaning modelled). -/
def goJoin (a b : String) : String := a ++ "/" ++ b

/-- Go `filepath.Rel(base, p)` restricted to the plain sub-path case. -/
def goRel (base p : String) : Option String :=
  if (base ++ "/").isPrefixOf p then some (p.drop (base.length + 1)) else none

/-- Go `ComputeSHA256Hash(data)[:32]`: the first 32 hex characters of the
digest (hex is ASCII, so Go byte slicing is character take). -/
def hexTrunc32 (data : List Nat) : String :=
  String.mk ((hexChars (sha256Bytes data)).take 32)

/-- `ManifestHandler.getAssetInfoFromMetadataOrFile`: build one manifest
asset object, preferring the stored key/hash and falling back to reading
and hashing the file. -/
def getAssetInfoFromMetadataOrFile (env : ServerEnv)
    (updateBundlePath assetPath ext key hash url updateObjectID isLaunchAssetParam
      runtimeVersion platform : String) (isLaunchAsset : Bool) : Option Json :=
  let contentType := if isLaunchAsset then "application/javascript" else manifestContentType ext
  let fileExt := if isLaunchAsset then ".bundle" else "." ++ ext
  let relPath :=
    if assetPath.startsWith "/" then (goRel env.updatesDir assetPath).getD assetPath
    else assetPath
  let u0 := env.hostname ++ "/api/assets?asset=" ++ relPath ++ "&runtimeVersion=" ++
    runtimeVersion ++ "&platform=" ++ platform
  let u1 := if url ≠ "" then u0 ++ "&redirect=" ++ url else u0
  let u2 := if isLaunchAssetParam = "true" then u1 ++ "&isLaunchAsset=true" else u1
  let u3 := if updateObjectID ≠ "" then u2 ++ "&updateId=" ++ updateObjectID else u2
  if key ≠ "" ∧ hash ≠ "" then
    some (.obj [("hash", .str hash), ("key", .str key), ("fileExtension", .str fileExt),
      ("contentType", .str contentType), ("url", .str u3)])
  else
    match fsRead env.fs (goJoin updateBundlePath assetPath) with
    | none => none
    | some data =>
      some (.obj [("hash", .str (Base64URLEncode (sha256Bytes data))),
        ("key", .str (hexTrunc32 data)), ("fileExtension", .str fileExt),
        ("contentType", .str contentType), ("url", .str u3)])

/-- `ManifestHandler.getExpoConfig`: read and parse
`<bundlePath>/expoConfig.json`. -/
def getExpoConfig (env : ServerEnv) (updateBundlePath : String) : Option Json :=
  lookupStr env.expoConfigFiles (goJoin updateBundlePath "expoConfig.json")

/-- `ManifestHandler.sendManifest`: assemble the full manifest and wrap it
in a multipart reply. -/
def sendManifest (env : ServerEnv) (req : ManifestRequest) (updateBundlePath : String)
    (metadata : UpdateMetadata)
    (updateID updateObjectID createdAt runtimeVersion platform : String)
    (protocolVersion : Int) : HttpResponse :=
  match lookupStr metadata.fileMetadata platform with
  | none => errJson 500 "No metadata for platform"
  | some pm =>
    let assets := pm.assets.filterMap (fun a =>
      getAssetInfoFromMetadataOrFile env updateBundlePath a.path a.ext a.key a.hash a.url
        "" "" runtimeVersion platform false)
    match getAssetInfoFromMetadataOrFile env updateBundlePath pm.bundle "bundle"
        pm.bundleKey pm.bundleHash pm.bundleUrl updateObjectID "true"
        runtimeVersion platform true with
    | none => errJson 500 "Failed to get launch asset"
    | some launchAsset =>
      let expoConfig :=
        match metadata.expoConfig with
        | some cfg => some cfg
        | none => getExpoConfig env updateBundlePath
      let manifest := Json.obj [
        ("id", .str updateID),
        ("createdAt", .str createdAt),
        ("runtimeVersion", .str runtimeVersion),
        ("assets", .arr assets),
        ("launchAsset", launchAsset),
        ("metadata", .obj []),
        ("extra", .obj [("expoClient", expoConfig.getD .null)])]
      .multipart 200 "manifest" manifest (req.expectSignature ≠ "" && env.signerLoaded)
        protocolVersion

/-- The handler's `protocolVersion` local: header defaulted to `"0"`, then
`strconv.Atoi` with the error ignored. -/
def effProtocolVersion (req : ManifestRequest) : Int :=
  goAtoi (if req.protocolVersionHeader = "" then "0" else req.protocolVersionHeader)

/-- The handler's `platform` local: header, falling back to the query. -/
def effPlatform (req : ManifestRequest) : String :=
  if req.platformHeader = "" then req.platformQuery else req.platformHeader

/-- The handler's `runtimeVersion` local: header, falling back to the query. -/
def effRuntimeVersion (req : ManifestRequest) : String :=
  if req.runtimeVersionHeader = "" then req.runtimeVersionQuery else req.runtimeVersionHeader

/-- The handler's `channel` local: header defaulted to `production`. -/
def effChannel (req : ManifestRequest) : String :=
  if req.channelHeader = "" then "production" else req.channelHeader

/-- Go `ManifestHandler.Handle`: the manifest endpoint's state machine.
The store is the updates collection; the repository being `nil` is
`env.dbConnected = false`.  (The handler's injected `RolloutService` is
never consulted anywhere in its body — nothing here reads
`rolloutPercentage`.) -/
def ManifestHandle (env : ServerEnv) (store : List Update) (req : ManifestRequest) :
    HttpResponse :=
  if req.method ≠ "GET" then errJson 405 "Expected GET."
  else if effPlatform req ≠ "ios" ∧ effPlatform req ≠ "android" then
    errJson 400 "Unsupported platform. Expected either ios or android."
  else if effRuntimeVersion req = "" then errJson 400 "No runtimeVersion provided."
  else if req.projectSlug = "" then errJson 400 "Project slug is required"
  else if ¬ env.dbConnected then errJson 503 "Database not connected"
  else
    match FindLatest store req.projectSlug (effRuntimeVersion req) (effChannel req)
        (effPlatform req) with
    | none => handleNoUpdateAvailable env req (effProtocolVersion req)
    | some update =>
      if update.isRollback then
        if req.currentUpdateID = req.embeddedUpdateID then
          handleNoUpdateAvailable env req (effProtocolVersion req)
        else
          .multipart 200 "directive"
            (.obj [("type", .str "rollBackToEmbedded"),
              ("parameters", .obj [("commitTime",
                .str (formatTimeMillis update.createdAt))])])
            (req.expectSignature ≠ "" && env.signerLoaded) (effProtocolVersion req)
      else if req.currentUpdateID = update.updateID ∧ effProtocolVersion req = 1 then
        handleNoUpdateAvailable env req (effProtocolVersion req)
      else
        match update.metadata with
        | none => errJson 500 "Update metadata missing"
        | some md =>
          sendManifest env req update.bundlePath md update.updateID update.id
            (formatTimeMillis update.createdAt) (effRuntimeVersion req) (effPlatform req)
            (effProtocolVersion req)

/-! ## Asset endpoint (Go `handlers.AssetsHandler`) -/

/-- The query parameters `AssetsHandler.Handle` reads (absent reads `""`). -/
structure AssetsRequest where
  asset : String
  platform : String
  runtimeVersion : String
  redirect : String
  updateId : String
  isLaunchAsset : String

/-- The asset endpoint's outcome: the HTTP response, and whether a
background `IncrementDownloads` goroutine was spawned. -/
structure AssetsResult where
  response : HttpResponse
  downloadIncremented : Bool

/-- Substring test on character lists (Go `strings.Contains`). -/
def listContainsSub (pat : List Char) : List Char → Bool
  | [] => pat.isEmpty
  | c :: t => pat.isPrefixOf (c :: t) || listContainsSub pat t

/-- One pass of Go `path.Clean`'s element processing: `acc` holds the kept
elements in reverse. -/
def goCleanAux (rooted : Bool) : List String → List String → List String
  | [], acc => acc
  | "" :: rest, acc => goCleanAux rooted rest acc
  | "." :: rest, acc => goCleanAux rooted rest acc
  | ".." :: rest, acc =>
    match acc with
    | [] => if rooted then goCleanAux rooted rest [] else goCleanAux rooted rest [".."]
    | ".." :: _ => goCleanAux rooted rest (".." :: acc)
    | _ :: accT => goCleanAux rooted rest accT
  | x :: rest, acc => goCleanAux rooted rest (x :: acc)

/-- Go `filepath.Clean` on Unix: lexical path cleaning. -/
def goClean (p : String) : String :=
  if p = "" then "."
  else
    let rooted := p.startsWith "/"
    let s := String.intercalate "/" (goCleanAux rooted (p.splitOn "/") []).reverse
    if rooted then "/" ++ s else if s = "" then "." else s

/-- ASCII lowercase of a character (Go `strings.ToLower` on extensions). -/
def asciiLower (c : Char) : Char :=
  if 65 ≤ c.toNat ∧ c.toNat ≤ 90 then Char.ofNat (c.toNat + 32) else c

/-- Go `filepath.Ext`: the suffix of the final path element from its last
dot, or `""`. -/
def goExt (p : String) : String :=
  let base := ((p.splitOn "/").getLast? ).getD p
  if (base.splitOn ".").length ≤ 1 then ""
  else "." ++ ((base.splitOn ".").getLast? ).getD ""

/-- `AssetsHandler.getContentType`: MIME type by lowercased extension. -/
def assetsContentType (path : String) : String :=
  match String.mk ((goExt path).data.map asciiLower) with
  | ".js" | ".hbc" | ".bundle" => "application/javascript"
  | ".png" => "image/png"
  | ".jpg" | ".jpeg" => "image/jpeg"
  | ".gif" => "image/gif"
  | ".svg" => "image/svg+xml"
  | ".webp" => "image/webp"
  | ".ttf" => "font/ttf"
  | ".otf" => "font/otf"
  | ".woff" => "font/woff"
  | ".woff2" => "font/woff2"
  | ".json" => "application/json"
  | _ => "application/octet-stream"

/-- Go `AssetsHandler.Handle`: redirect-with-accounting, or validate and
stream a local file. -/
def AssetsHandle (env : ServerEnv) (req : AssetsRequest) : AssetsResult :=
  if req.redirect ≠ "" then
    { response := .redirect 302 req.redirect
      downloadIncremented :=
        req.isLaunchAsset = "true" ∧ req.updateId ≠ "" ∧ env.dbConnected }
  else if req.asset = "" then
    { response := errJson 400 "No asset name provided.", downloadIncremented := false }
  else if req.platform ≠ "ios" ∧ req.platform ≠ "android" then
    { response := errJson 400 "No platform provided. Expected \"ios\" or \"android\"."
      downloadIncremented := false }
  else if req.runtimeVersion = "" then
    { response := errJson 400 "No runtimeVersion provided.", downloadIncremented := false }
  else
    let cleanPath := goClean req.asset
    if listContainsSub "..".data cleanPath.data then
      { response := errJson 400 "Invalid asset path.", downloadIncremented := false }
    else
      let assetPath := goJoin env.updatesDir cleanPath
      match fsRead env.fs assetPath with
      | none =>
        { response := errJson 404 ("Asset \"" ++ req.asset ++ "\" does not exist.")
          downloadIncremented := false }
      | some _ =>
        { response := .fileStream 200 (assetsContentType assetPath) assetPath
          downloadIncremented := false }

/-! ## Admin surface (Go `handlers.AdminHandler`) -/

/-- The `$set` document of `AdminHandler.UpdateUpdate` applied by
`UpdateRepository.Update` to the matched record: the raw request values,
unclamped. -/
def applyPatchSet (isActive : Option Bool) (rolloutPercentage : Option Int) (u : Update) :
    Update :=
  let u1 := match isActive with
    | some b => { u with isActive := b }
    | none => u
  match rolloutPercentage with
  | some p => { u1 with rolloutPercentage := p }
  | none => u1

/-- Go `AdminHandler.UpdateUpdate` (PATCH `/api/admin/updates/:id`), acting
on the matched record `u`: returns the response and the persisted record. -/
def UpdateUpdate (dbConnected : Bool) (isActive : Option Bool)
    (rolloutPercentage : Option Int) (u : Update) : HttpResponse × Update :=
  if ¬ dbConnected then (errJson 503 "Database not connected", u)
  else if isActive.isNone ∧ rolloutPercentage.isNone then
    (errJson 400 "No updates provided", u)
  else
    (.json 200 (.obj [("message", .str "Update modified successfully"), ("id", .str u.id)]),
      applyPatchSet isActive rolloutPercentage u)

/-- Go `AdminHandler.CreateRollback` (POST `/api/admin/updates/:id/rollback`):
the record it builds and inserts via `UpdateRepository.Create`.
`runtimeVersion` is `c.Query` (absent reads `""`); `channel` is
`c.DefaultQuery(…, "production")` (`none` = key absent). -/
def CreateRollback (now : Nat) (runtimeVersion : String) (channel : Option String) : Update :=
  repoCreate now
    { id := "", projectSlug := "", updateID := ""
      runtimeVersion := runtimeVersion
      channel := channel.getD "production"
      platform := "all", bundlePath := ""
      createdAt := 0, isActive := true, isRollback := true
      rolloutPercentage := 100, downloads := 0, metadata := none }

/-! ### Ingestion (Go `AdminHandler.RegisterUpdate`)

The I/O orchestration (multipart parse, temp files, unzip, the nesting
heuristics) is collapsed into an `IngestEnv`: `bundleFs` is the content of
the resolved bundle directory (paths relative to it), `parsedMetadata` the
result of reading and unmarshalling its `metadata.json` (`none` covers both
a failed read and a failed parse — the code treats either by leaving
`update.Metadata` nil and continuing), and `parsedExpoConfig` likewise for
`expoConfig.json`.  The hashing pass and record construction are modelled
statement-by-statement from the source. -/

/-- Environment of one ingestion request. -/
structure IngestEnv where
  dbConnected : Bool
  unzipOk : Bool
  bundleFs : FileSystem
  parsedMetadata : Option UpdateMetadata
  parsedExpoConfig : Option Json
  cloudinaryConnected : Bool
  urlMap : List (String × String)
  generatedUpdateID : String
  now : Nat

/-- The form fields of an ingestion request (`c.PostForm` /
`c.DefaultPostForm`; `none` = field absent). -/
structure RegisterForm where
  projectSlug : String
  runtimeVersion : String
  channel : Option String
  platform : Option String
  rolloutPercentage : Option String
  updateId : String
  hasBundleFile : Bool

/-- The hashing pass over one asset: fill `key`/`hash` from the file bytes
when the file reads, silently leave them unchanged when it does not. -/
def hashPassAsset (fs : FileSystem) (a : Asset) : Asset :=
  match fsRead fs a.path with
  | some data =>
    { a with key := hexTrunc32 data, hash := Base64URLEncode (sha256Bytes data) }
  | none => a

/-- The hashing pass over one platform entry (bundle, then each asset). -/
def hashPassPm (fs : FileSystem) (pm : PlatformMetadata) : PlatformMetadata :=
  let pm1 := match fsRead fs pm.bundle with
    | some data =>
      { pm with bundleKey := hexTrunc32 data, bundleHash := Base64URLEncode (sha256Bytes data) }
    | none => pm
  { pm1 with assets := pm1.assets.map (hashPassAsset fs) }

/-- The "Compute hashes (Initial pass locally)" loop of `RegisterUpdate`. -/
def hashPass (fs : FileSystem) (md : UpdateMetadata) : UpdateMetadata :=
  { md with fileMetadata := md.fileMetadata.map (fun p => (p.1, hashPassPm fs p.2)) }

/-- Cloudinary URL injection for one asset. -/
def injectUrlAsset (urlMap : List (String × String)) (a : Asset) : Asset :=
  match lookupStr urlMap a.path with
  | some u => { a with url := u }
  | none => a

/-- Cloudinary URL injection for one platform entry. -/
def injectUrlPm (urlMap : List (String × String)) (pm : PlatformMetadata) : PlatformMetadata :=
  let pm1 := match lookupStr urlMap pm.bundle with
    | some u => { pm with bundleUrl := u }
    | none => pm
  { pm1 with assets := pm1.assets.map (injectUrlAsset urlMap) }

/-- The Cloudinary URL back-fill loop of `RegisterUpdate`. -/
def injectUrls (urlMap : List (String × String)) (md : UpdateMetadata) : UpdateMetadata :=
  { md with fileMetadata := md.fileMetadata.map (fun p => (p.1, injectUrlPm urlMap p.2)) }

/-- The metadata `RegisterUpdate` attaches to the record: `metadata.json`
parsed (or nothing), `expoConfig.json` merged in, the hashing pass applied,
and — when Cloudinary is connected — the returned URL map injected. -/
def ingestMetadata (env : IngestEnv) : Option UpdateMetadata :=
  match env.parsedMetadata with
  | none => none
  | some md0 =>
    let md1 := { md0 with expoConfig :=
      match env.parsedExpoConfig with
      | some e => some e
      | none => md0.expoConfig }
    let md2 := hashPass env.bundleFs md1
    some (if env.cloudinaryConnected then injectUrls env.urlMap md2 else md2)

/-- Go `AdminHandler.RegisterUpdate` (POST `/api/admin/updates`): the
response and the record inserted into the store (`none` when nothing was
inserted). -/
def RegisterUpdate (env : IngestEnv) (form : RegisterForm) :
    HttpResponse × Option Update :=
  if ¬ env.dbConnected then (errJson 503 "Database not connected", none)
  else if form.projectSlug = "" ∨ form.runtimeVersion = "" then
    (errJson 400 "projectSlug and runtimeVersion are required", none)
  else if ¬ form.hasBundleFile then (errJson 400 "Bundle file is required", none)
  else if ¬ env.unzipOk then (errJson 500 "Failed to unzip bundle", none)
  else
    let persisted := repoCreate env.now
      { id := ""
        projectSlug := form.projectSlug
        updateID := if form.updateId = "" then env.generatedUpdateID else form.updateId
        runtimeVersion := form.runtimeVersion
        channel := form.channel.getD "production"
        platform := form.platform.getD "all"
        bundlePath := "extracted"
        createdAt := 0, isActive := true, isRollback := false
        rolloutPercentage := goAtoi (form.rolloutPercentage.getD "100"), downloads := 0
        metadata := ingestMetadata env }
    (.json 201 (.obj [("message", .str "Update registered successfully")]), some persisted)

/-! ## Claim C2 — `find_latest` returns the newest matching record -/

/-- For a non-empty requested platform, the `FindLatest` filter document is
exactly the claim's match predicate. -/
theorem matchesLatestFilter_iff (p rv ch pf : String) (hpf : pf ≠ "") (u : Update) :
    matchesLatestFilter p rv ch pf u = true ↔
      (u.projectSlug = p ∧ u.runtimeVersion = rv ∧ u.channel = ch ∧ u.isActive = true ∧
        (u.platform = pf ∨ u.platform = "all")) := by
  simp only [matchesLatestFilter, Bool.and_eq_true, Bool.or_eq_true, beq_iff_eq]
  constructor
  · rintro ⟨⟨⟨⟨h1, h2⟩, h3⟩, h4⟩, h5⟩
    rcases h5 with h5 | h5
    · exact absurd h5 hpf
    · exact ⟨h1, h2, h3, h4, h5⟩
  · rintro ⟨h1, h2, h3, h4, h5⟩
    exact ⟨⟨⟨⟨h1, h2⟩, h3⟩, h4⟩, Or.inr h5⟩

/-- What claim C2 states of one query: a `some` result is a matching record
of maximal `createdAt`, and a `none` result means no record matches. -/
def FindLatestSpec (l : List Update) (p rv ch pf : String) : Prop :=
  (∀ r, FindLatest l p rv ch pf = some r →
    r ∈ l ∧ r.projectSlug = p ∧ r.runtimeVersion = rv ∧ r.channel = ch ∧
      r.isActive = true ∧ (r.platform = pf ∨ r.platform = "all") ∧
      ∀ u ∈ l, u.projectSlug = p → u.runtimeVersion = rv → u.channel = ch →
        u.isActive = true → (u.platform = pf ∨ u.platform = "all") →
        u.createdAt ≤ r.createdAt) ∧
  (FindLatest l p rv ch pf = none →
    ∀ u ∈ l, ¬(u.projectSlug = p ∧ u.runtimeVersion = rv ∧ u.channel = ch ∧
      u.isActive = true ∧ (u.platform = pf ∨ u.platform = "all")))

/-- C2 (amended: for a non-empty requested platform): `FindLatest` returns a
record matching (project, runtime, channel, platform ∈ {requested, all},
`isActive = true`) of greatest `createdAt`, and `none` exactly when no
record matches.  (For an empty requested platform the source skips the
platform clause entirely — see `find_latest_empty_platform_cex`.) -/
theorem find_latest_latest_wins :
    ∀ (l : List Update) (p rv ch pf : String), pf ≠ "" → FindLatestSpec l p rv ch pf := by
  intro l p rv ch pf hpf
  constructor
  · intro r hr
    have hmem := maxByCreatedAt_mem _ _ hr
    have hfilter := List.mem_filter.mp hmem
    have hpred := (matchesLatestFilter_iff p rv ch pf hpf r).mp hfilter.2
    refine ⟨hfilter.1, hpred.1, hpred.2.1, hpred.2.2.1, hpred.2.2.2.1, hpred.2.2.2.2, ?_⟩
    intro u hu h1 h2 h3 h4 h5
    exact maxByCreatedAt_ge _ _ hr u
      (List.mem_filter.mpr ⟨hu, (matchesLatestFilter_iff p rv ch pf hpf u).mpr
        ⟨h1, h2, h3, h4, h5⟩⟩)
  · intro hn u hu hc
    have hnil : l.filter (matchesLatestFilter p rv ch pf) = [] :=
      maxByCreatedAt_eq_none _ hn
    have hin : u ∈ l.filter (matchesLatestFilter p rv ch pf) :=
      List.mem_filter.mpr ⟨hu, (matchesLatestFilter_iff p rv ch pf hpf u).mpr hc⟩
    rw [hnil] at hin
    exact absurd hin (List.not_mem_nil u)

/-- An active iOS-only record, for the empty-platform counterexample. -/
def cexPlatformOnly : Update :=
  { id := "", projectSlug := "p", updateID := "", runtimeVersion := "1"
    channel := "production", platform := "ios", bundlePath := "", createdAt := 1
    isActive := true, isRollback := false, rolloutPercentage := 100, downloads := 0
    metadata := none }

/-- C2 counterexample: with requested platform `""`, `FindLatest` returns a
record whose platform is neither the requested one nor `"all"` — the source
adds the `$or` platform clause only when the requested platform is
non-empty, so the claim as stated (quantified over every query) fails. -/
theorem find_latest_empty_platform_cex :
    FindLatest [cexPlatformOnly] "p" "1" "production" "" = some cexPlatformOnly ∧
    cexPlatformOnly.platform ≠ "" ∧ cexPlatformOnly.platform ≠ "all" :=
  ⟨rfl, by decide, by decide⟩

/-- An older matching all-platforms record. -/
def witOlderAll : Update :=
  { id := "a", projectSlug := "p", updateID := "u-a", runtimeVersion := "1"
    channel := "production", platform := "all", bundlePath := "", createdAt := 1
    isActive := true, isRollback := false, rolloutPercentage := 100, downloads := 0
    metadata := none }

/-- A newer matching android record. -/
def witNewerAndroid : Update :=
  { id := "b", projectSlug := "p", updateID := "u-b", runtimeVersion := "1"
    channel := "production", platform := "android", bundlePath := "", createdAt := 5
    isActive := true, isRollback := false, rolloutPercentage := 100, downloads := 0
    metadata := none }

/-- Witness for C2 at a concrete two-record store and android query. -/
theorem find_latest_latest_wins_witness :
    ("android" : String) ≠ "" ∧
      FindLatestSpec [witOlderAll, witNewerAndroid] "p" "1" "production" "android" :=
  ⟨by decide, find_latest_latest_wins _ _ _ _ _ (by decide)⟩

/-! ## Claim C1 — rollout gating on the manifest path -/

/-- A server with the store connected and no signing key. -/
def demoEnv : ServerEnv :=
  { hostname := "http://h", dbConnected := true, signerLoaded := false
    updatesDir := "/upd", fs := [], expoConfigFiles := [] }

/-- A matching active android update whose `rolloutPercentage` is 0, so
every device falls outside its rollout. -/
def zeroRolloutUpdate : Update :=
  { id := "aabbcc", projectSlug := "demo", updateID := "u-1", runtimeVersion := "1"
    channel := "production", platform := "android", bundlePath := "/tmp/x"
    createdAt := 1735787045678, isActive := true, isRollback := false
    rolloutPercentage := 0, downloads := 0
    metadata := some
      { fileMetadata := [("android",
          { bundle := "bundles/android-a.js", bundleUrl := ""
            bundleKey := "2d711642b726b04401627ca9fbac32f5"
            bundleHash := "LXEWQrcmsEQBYnyp-6wy9chTD7GQPMTbAiWHF5IaSIE"
            assets := [] })]
        expoConfig := none } }

/-- A well-formed protocol-1 android manifest request for that update. -/
def demoManifestReq : ManifestRequest :=
  { method := "GET", protocolVersionHeader := "1", platformHeader := "android"
    platformQuery := "", runtimeVersionHeader := "1", runtimeVersionQuery := ""
    channelHeader := "", currentUpdateID := "", embeddedUpdateID := ""
    expectSignature := "", projectSlug := "demo" }

/-- C1 fails on the code: the candidate's rollout percentage is 0, so by the
rollout selector every device falls outside it, yet the manifest endpoint
replies with the full manifest — `ManifestHandler.Handle` never consults
`RolloutService.ShouldReceiveUpdate` (its injected `rolloutService` field is
dead), so no rollout gating is applied between the store query and the
multipart reply. -/
theorem rollout_gating_never_applied :
    (∀ (rngDraw : Nat) (deviceHash : String),
      ShouldReceiveUpdate rngDraw zeroRolloutUpdate.rolloutPercentage deviceHash = false) ∧
    ∃ body signed, ManifestHandle demoEnv [zeroRolloutUpdate] demoManifestReq =
      .multipart 200 "manifest" body signed 1 :=
  ⟨fun _ _ => rfl, _, _, rfl⟩

/-! ## Claim C3 — rollback candidates -/

/-- C3: with the pre-checks passed and a rollback candidate, equal
`expo-current-update-id` and `expo-embedded-update-id` headers give the
no-update outcome, and otherwise the reply is a `rollBackToEmbedded`
directive whose `parameters.commitTime` is the record's `createdAt`
rendered in UTC as `YYYY-MM-DDTHH:MM:SS.sssZ` (`formatTimeMillis`). -/
theorem rollback_directive_shape :
    ∀ (env : ServerEnv) (store : List Update) (req : ManifestRequest) (u : Update),
    req.method = "GET" →
    (effPlatform req = "ios" ∨ effPlatform req = "android") →
    effRuntimeVersion req ≠ "" →
    req.projectSlug ≠ "" →
    env.dbConnected = true →
    FindLatest store req.projectSlug (effRuntimeVersion req) (effChannel req)
      (effPlatform req) = some u →
    u.isRollback = true →
    ManifestHandle env store req =
      if req.currentUpdateID = req.embeddedUpdateID then
        handleNoUpdateAvailable env req (effProtocolVersion req)
      else
        .multipart 200 "directive"
          (.obj [("type", .str "rollBackToEmbedded"),
            ("parameters", .obj [("commitTime", .str (formatTimeMillis u.createdAt))])])
          (req.expectSignature ≠ "" && env.signerLoaded) (effProtocolVersion req) := by
  intro env store req u hm hp hrv hslug hdb hfind hroll
  unfold ManifestHandle
  rw [if_neg (by simp [hm]), if_neg (by rcases hp with h | h <;> simp [h]), if_neg hrv,
    if_neg hslug, if_neg (by simp [hdb]), hfind]
  simp only [hroll, if_true]

/-- The rollback record of scenario S5 (platform `all`, no metadata). -/
def demoRollback : Update :=
  { id := "rid", projectSlug := "demo", updateID := "", runtimeVersion := "1"
    channel := "production", platform := "all", bundlePath := ""
    createdAt := 1735787045678, isActive := true, isRollback := true
    rolloutPercentage := 100, downloads := 0, metadata := none }

/-- A manifest request whose current and embedded update ids differ. -/
def demoRollbackReq : ManifestRequest :=
  { method := "GET", protocolVersionHeader := "1", platformHeader := "android"
    platformQuery := "", runtimeVersionHeader := "1", runtimeVersionQuery := ""
    channelHeader := "", currentUpdateID := "A", embeddedUpdateID := "B"
    expectSignature := "", projectSlug := "demo" }

/-- The same request with current = embedded. -/
def demoRollbackReqSame : ManifestRequest :=
  { demoRollbackReq with currentUpdateID := "X", embeddedUpdateID := "X" }

/-- Witness for C3 at scenario S5: differing ids give the directive with the
rendered commit time `2025-01-02T03:04:05.678Z`; equal ids give the
no-update directive. -/
theorem rollback_directive_shape_witness :
    (demoRollbackReq.method = "GET" ∧
      (effPlatform demoRollbackReq = "ios" ∨ effPlatform demoRollbackReq = "android") ∧
      effRuntimeVersion demoRollbackReq ≠ "" ∧
      demoRollbackReq.projectSlug ≠ "" ∧
      demoEnv.dbConnected = true ∧
      FindLatest [demoRollback] demoRollbackReq.projectSlug
        (effRuntimeVersion demoRollbackReq) (effChannel demoRollbackReq)
        (effPlatform demoRollbackReq) = some demoRollback ∧
      demoRollback.isRollback = true) ∧
    ManifestHandle demoEnv [demoRollback] demoRollbackReq =
      .multipart 200 "directive"
        (.obj [("type", .str "rollBackToEmbedded"),
          ("parameters", .obj [("commitTime", .str "2025-01-02T03:04:05.678Z")])])
        false 1 ∧
    ManifestHandle demoEnv [demoRollback] demoRollbackReqSame =
      .multipart 200 "directive" (.obj [("type", .str "noUpdateAvailable")]) false 1 := by
  refine ⟨⟨rfl, Or.inr rfl, by decide, by decide, rfl, rfl, rfl⟩, ?_, ?_⟩
  · have h := rollback_directive_shape demoEnv [demoRollback] demoRollbackReq demoRollback
      rfl (Or.inr rfl) (by decide) (by decide) rfl rfl rfl
    exact h.trans rfl
  · have h := rollback_directive_shape demoEnv [demoRollback] demoRollbackReqSame demoRollback
      rfl (Or.inr rfl) (by decide) (by decide) rfl rfl rfl
    exact h.trans rfl

/-! ## Claim C4 — no candidate -/

/-- C4: with the pre-checks passed and no candidate from `FindLatest`,
effective protocol version 0 gives HTTP 404 with
`{"error": "No update available"}`, and effective protocol version 1 gives
HTTP 200 with a one-part multipart body named `directive` whose JSON is
`{"type": "noUpdateAvailable"}`. -/
theorem no_candidate_outcomes :
    ∀ (env : ServerEnv) (store : List Update) (req : ManifestRequest),
    req.method = "GET" →
    (effPlatform req = "ios" ∨ effPlatform req = "android") →
    effRuntimeVersion req ≠ "" →
    req.projectSlug ≠ "" →
    env.dbConnected = true →
    FindLatest store req.projectSlug (effRuntimeVersion req) (effChannel req)
      (effPlatform req) = none →
    (effProtocolVersion req = 0 →
      ManifestHandle env store req = .json 404 (.obj [("error", .str "No update available")])) ∧
    (effProtocolVersion req = 1 →
      ManifestHandle env store req =
        .multipart 200 "directive" (.obj [("type", .str "noUpdateAvailable")])
          (req.expectSignature ≠ "" && env.signerLoaded) 1) := by
  intro env store req hm hp hrv hslug hdb hfind
  have hred : ManifestHandle env store req =
      handleNoUpdateAvailable env req (effProtocolVersion req) := by
    unfold ManifestHandle
    rw [if_neg (by simp [hm]), if_neg (by rcases hp with h | h <;> simp [h]), if_neg hrv,
      if_neg hslug, if_neg (by simp [hdb]), hfind]
  constructor
  · intro h0
    rw [hred]
    simp [handleNoUpdateAvailable, h0, errJson]
  · intro h1
    rw [hred]
    simp [handleNoUpdateAvailable, h1]

/-- The protocol-0 variant of the demo request (header absent). -/
def demoManifestReq0 : ManifestRequest := { demoManifestReq with protocolVersionHeader := "" }

/-- Witness for C4 on an empty store: scenario S2 (no header ⇒ protocol 0,
404 JSON) and scenario S1 (protocol 1, multipart no-update directive). -/
theorem no_candidate_outcomes_witness :
    (demoManifestReq0.method = "GET" ∧
      (effPlatform demoManifestReq0 = "ios" ∨ effPlatform demoManifestReq0 = "android") ∧
      effRuntimeVersion demoManifestReq0 ≠ "" ∧
      demoManifestReq0.projectSlug ≠ "" ∧
      demoEnv.dbConnected = true ∧
      FindLatest ([] : List Update) demoManifestReq0.projectSlug
        (effRuntimeVersion demoManifestReq0) (effChannel demoManifestReq0)
        (effPlatform demoManifestReq0) = none ∧
      effProtocolVersion demoManifestReq0 = 0 ∧ effProtocolVersion demoManifestReq = 1) ∧
    ManifestHandle demoEnv [] demoManifestReq0 =
      .json 404 (.obj [("error", .str "No update available")]) ∧
    ManifestHandle demoEnv [] demoManifestReq =
      .multipart 200 "directive" (.obj [("type", .str "noUpdateAvailable")]) false 1 := by
  refine ⟨⟨rfl, Or.inr rfl, by decide, by decide, rfl, rfl, rfl, rfl⟩, ?_, ?_⟩
  · exact (no_candidate_outcomes demoEnv [] demoManifestReq0
      rfl (Or.inr rfl) (by decide) (by decide) rfl rfl).1 rfl
  · have h := (no_candidate_outcomes demoEnv [] demoManifestReq
      rfl (Or.inr rfl) (by decide) (by decide) rfl rfl).2 rfl
    exact h.trans rfl

/-! ## Claim C5 — PATCH clamping -/

/-- An existing update being patched. -/
def patchTarget : Update :=
  { id := "pid", projectSlug := "demo", updateID := "u-9", runtimeVersion := "1"
    channel := "production", platform := "all", bundlePath := ""
    createdAt := 10, isActive := true, isRollback := false
    rolloutPercentage := 100, downloads := 0, metadata := none }

/-- C5 fails on the code: the admin PATCH handler
(`AdminHandler.UpdateUpdate`) writes the raw request value through the
generic `UpdateRepository.Update`, so patching `rolloutPercentage` to 150
persists 150 and patching to −5 persists −5 — while the repository's own
`SetRollout` (which clamps to [0, 100] exactly as the spec states) is never
called by any handler.  The requests succeed (HTTP 200), so out-of-range
values are indeed not rejected — they are just not clamped either. -/
theorem admin_patch_rollout_unclamped :
    (UpdateUpdate true none (some 150) patchTarget).2.rolloutPercentage = 150 ∧
    (UpdateUpdate true none (some (-5)) patchTarget).2.rolloutPercentage = -5 ∧
    (UpdateUpdate true none (some 150) patchTarget).1 =
      .json 200 (.obj [("message", .str "Update modified successfully"),
        ("id", .str "pid")]) ∧
    (SetRollout patchTarget 150).rolloutPercentage = 100 ∧
    (SetRollout patchTarget (-5)).rolloutPercentage = 0 :=
  ⟨rfl, rfl, rfl, rfl, rfl⟩

/-! ## Claim C6 — the rollout formula -/

/-- C6 counterexample: for the fingerprint `"é"` (UTF-8 bytes 195, 169) the
source buckets by the rune sum (233, bucket 33), not the byte sum (364,
bucket 64): at percentage 50 the code answers `true` for every RNG draw
while the claim's byte-sum formula says `false`. -/
theorem rollout_rune_vs_byte_sum_cex :
    ShouldReceiveUpdate 0 50 "é" = true ∧
    ShouldReceiveUpdate 1 50 "é" = true ∧
    CalculateRolloutBucket "é" = 33 ∧
    specByteSum "é" = 364 ∧
    ¬((specByteSum "é" % 100 : Nat) < 50) :=
  ⟨rfl, rfl, rfl, rfl, by decide⟩

/-- C6 (amended): `should_serve` returns `true` for percentage ≥ 100 and
`false` for percentage ≤ 0; otherwise, for a non-empty fingerprint, it
returns `(sum of the rune values of f) mod 100 < p` — the Go `range` loop
sums Unicode code points, not bytes (they agree on ASCII fingerprints) —
and gives the same answer on every call for the same `f` and `p`. -/
theorem rollout_selector_behavior :
    ∀ (r r' : Nat) (p : Int) (f : String),
    (p ≥ 100 → ShouldReceiveUpdate r p f = true) ∧
    (p ≤ 0 → ¬p ≥ 100 → ShouldReceiveUpdate r p f = false) ∧
    (0 < p → p < 100 → f ≠ "" →
      ShouldReceiveUpdate r p f = decide (((runeSum f % 100 : Nat) : Int) < p)) ∧
    (f ≠ "" → ShouldReceiveUpdate r p f = ShouldReceiveUpdate r' p f) := by
  intro r r' p f
  refine ⟨?_, ?_, ?_, ?_⟩
  · intro h100
    simp [ShouldReceiveUpdate, h100]
  · intro h0 hn100
    simp [ShouldReceiveUpdate, h0, hn100]
  · intro hpos hlt hf
    have h1 : ¬p ≥ 100 := by omega
    have h2 : ¬p ≤ 0 := by omega
    simp [ShouldReceiveUpdate, h1, h2, hf, deterministicRollout]
  · intro hf
    by_cases h100 : p ≥ 100
    · simp [ShouldReceiveUpdate, h100]
    · by_cases h0 : p ≤ 0
      · simp [ShouldReceiveUpdate, h100, h0]
      · simp [ShouldReceiveUpdate, h100, h0, hf]

/-- Witness for C6 at `p = 50`, `f = "ab"` (and the boundary cases at the
same fingerprint). -/
theorem rollout_selector_behavior_witness :
    ((100 : Int) ≥ 100 ∧ (0 : Int) ≤ 0 ∧ ¬(0 : Int) ≥ 100 ∧
      (0 : Int) < 50 ∧ (50 : Int) < 100 ∧ ("ab" : String) ≠ "") ∧
    ShouldReceiveUpdate 7 100 "ab" = true ∧
    ShouldReceiveUpdate 7 0 "ab" = false ∧
    ShouldReceiveUpdate 7 50 "ab" = decide (((runeSum "ab" % 100 : Nat) : Int) < 50) ∧
    ShouldReceiveUpdate 7 50 "ab" = ShouldReceiveUpdate 99 50 "ab" := by
  refine ⟨⟨by decide, by decide, by decide, by decide, by decide, by decide⟩, ?_, ?_, ?_, ?_⟩
  · exact (rollout_selector_behavior 7 99 100 "ab").1 (by decide)
  · exact (rollout_selector_behavior 7 99 0 "ab").2.1 (by decide) (by decide)
  · exact (rollout_selector_behavior 7 99 50 "ab").2.2.1 (by decide) (by decide) (by decide)
  · exact (rollout_selector_behavior 7 99 50 "ab").2.2.2 (by decide)

/-! ## Claim C7 — key/hash agreement -/

/-- The claim's relation on one persisted platform entry: every `key`/`hash`
pair whose file was readable at ingestion time is the truncated hex and the
base64url of that file's SHA-256 digest. -/
def keyHashOk (fs : FileSystem) (pm : PlatformMetadata) : Prop :=
  (∀ data, fsRead fs pm.bundle = some data →
    pm.bundleKey = hexTrunc32 data ∧ pm.bundleHash = Base64URLEncode (sha256Bytes data)) ∧
  (∀ a ∈ pm.assets, ∀ data, fsRead fs a.path = some data →
    a.key = hexTrunc32 data ∧ a.hash = Base64URLEncode (sha256Bytes data))

/-- The hashing pass leaves an asset's path unchanged. -/
theorem hashPassAsset_path (fs : FileSystem) (a : Asset) :
    (hashPassAsset fs a).path = a.path := by
  unfold hashPassAsset
  cases h : fsRead fs a.path <;> simp

/-- The hashing pass leaves the bundle path unchanged. -/
theorem hashPassPm_bundle (fs : FileSystem) (pm : PlatformMetadata) :
    (hashPassPm fs pm).bundle = pm.bundle := by
  unfold hashPassPm
  cases h : fsRead fs pm.bundle <;> simp

/-- The hashing pass maps `hashPassAsset` over the assets. -/
theorem hashPassPm_assets (fs : FileSystem) (pm : PlatformMetadata) :
    (hashPassPm fs pm).assets = pm.assets.map (hashPassAsset fs) := by
  unfold hashPassPm
  cases h : fsRead fs pm.bundle <;> simp

/-- When the bundle file reads, the hashing pass stores its truncated hex
key and base64url hash. -/
theorem hashPassPm_bundleKeyHash (fs : FileSystem) (pm : PlatformMetadata) (d : List Nat)
    (h : fsRead fs pm.bundle = some d) :
    (hashPassPm fs pm).bundleKey = hexTrunc32 d ∧
      (hashPassPm fs pm).bundleHash = Base64URLEncode (sha256Bytes d) := by
  unfold hashPassPm
  simp [h]

/-- The output of the hashing pass satisfies the key/hash relation. -/
theorem hashPassPm_ok (fs : FileSystem) (pm0 : PlatformMetadata) :
    keyHashOk fs (hashPassPm fs pm0) := by
  constructor
  · intro data hdata
    rw [hashPassPm_bundle] at hdata
    exact hashPassPm_bundleKeyHash fs pm0 data hdata
  · intro a ha data hdata
    rw [hashPassPm_assets] at ha
    obtain ⟨a0, ha0, rfl⟩ := List.mem_map.mp ha
    rw [hashPassAsset_path] at hdata
    unfold hashPassAsset
    simp [hdata]

/-- Cloudinary URL injection touches only `url`. -/
theorem injectUrlAsset_fields (m : List (String × String)) (a : Asset) :
    (injectUrlAsset m a).path = a.path ∧ (injectUrlAsset m a).key = a.key ∧
      (injectUrlAsset m a).hash = a.hash := by
  unfold injectUrlAsset
  cases h : lookupStr m a.path <;> simp

/-- Cloudinary URL injection touches only `bundleUrl` on the bundle side. -/
theorem injectUrlPm_fields (m : List (String × String)) (pm : PlatformMetadata) :
    (injectUrlPm m pm).bundle = pm.bundle ∧ (injectUrlPm m pm).bundleKey = pm.bundleKey ∧
      (injectUrlPm m pm).bundleHash = pm.bundleHash ∧
      (injectUrlPm m pm).assets = pm.assets.map (injectUrlAsset m) := by
  unfold injectUrlPm
  cases h : lookupStr m pm.bundle <;> simp

/-- Cloudinary URL injection preserves the key/hash relation. -/
theorem injectUrlPm_pres (m : List (String × String)) (fs : FileSystem)
    (pm : PlatformMetadata) (hok : keyHashOk fs pm) : keyHashOk fs (injectUrlPm m pm) := by
  obtain ⟨hb, hk, hh, has⟩ := injectUrlPm_fields m pm
  constructor
  · intro data hdata
    rw [hb] at hdata
    rw [hk, hh]
    exact hok.1 data hdata
  · intro a ha data hdata
    rw [has] at ha
    obtain ⟨a0, ha0, rfl⟩ := List.mem_map.mp ha
    obtain ⟨hp0, hk0, hh0⟩ := injectUrlAsset_fields m a0
    rw [hp0] at hdata
    rw [hk0, hh0]
    exact hok.2 a0 ha0 data hdata

/-- Every platform entry of metadata produced by `ingestMetadata` satisfies
the key/hash relation. -/
theorem ingestMetadata_keyHashOk (env : IngestEnv) (md : UpdateMetadata)
    (h : ingestMetadata env = some md) :
    ∀ pl pm, (pl, pm) ∈ md.fileMetadata → keyHashOk env.bundleFs pm := by
  intro pl pm hmem
  unfold ingestMetadata at h
  cases hpm : env.parsedMetadata with
  | none => rw [hpm] at h; exact absurd h (by simp)
  | some md0 =>
    rw [hpm] at h
    obtain rfl := Option.some.inj h
    by_cases hc : env.cloudinaryConnected
    · rw [if_pos hc] at hmem
      rw [show ∀ (m : List (String × String)) (x : UpdateMetadata),
          (injectUrls m x).fileMetadata = x.fileMetadata.map (fun p => (p.1, injectUrlPm m p.2))
          from fun _ _ => rfl] at hmem
      rw [show ∀ (fs : FileSystem) (x : UpdateMetadata),
          (hashPass fs x).fileMetadata = x.fileMetadata.map (fun p => (p.1, hashPassPm fs p.2))
          from fun _ _ => rfl] at hmem
      rw [List.map_map] at hmem
      obtain ⟨⟨pl0, pm0⟩, hmem0, heq⟩ := List.mem_map.mp hmem
      obtain rfl : pm = injectUrlPm env.urlMap (hashPassPm env.bundleFs pm0) :=
        (congrArg Prod.snd heq).symm
      exact injectUrlPm_pres _ _ _ (hashPassPm_ok env.bundleFs pm0)
    · rw [if_neg hc] at hmem
      rw [show ∀ (fs : FileSystem) (x : UpdateMetadata),
          (hashPass fs x).fileMetadata = x.fileMetadata.map (fun p => (p.1, hashPassPm fs p.2))
          from fun _ _ => rfl] at hmem
      obtain ⟨⟨pl0, pm0⟩, hmem0, heq⟩ := List.mem_map.mp hmem
      obtain rfl : pm = hashPassPm env.bundleFs pm0 := (congrArg Prod.snd heq).symm
      exact hashPassPm_ok env.bundleFs pm0

/-- Every platform entry of an update persisted by ingestion satisfies the
key/hash relation against the ingested files. -/
theorem registerUpdate_keyHashOk :
    ∀ (env : IngestEnv) (form : RegisterForm) (resp : HttpResponse) (u : Update)
      (md : UpdateMetadata) (pl : String) (pm : PlatformMetadata),
    RegisterUpdate env form = (resp, some u) →
    u.metadata = some md →
    (pl, pm) ∈ md.fileMetadata →
    keyHashOk env.bundleFs pm := by
  intro env form resp u md pl pm hreg hmd hmem
  unfold RegisterUpdate at hreg
  split at hreg
  · exact absurd hreg (by simp)
  split at hreg
  · exact absurd hreg (by simp)
  split at hreg
  · exact absurd hreg (by simp)
  split at hreg
  · exact absurd hreg (by simp)
  replace hreg := congrArg Prod.snd hreg
  obtain rfl : _ = u := Option.some.inj hreg
  exact ingestMetadata_keyHashOk env md hmd pl pm hmem

/-- C7: the truncated-hex key and the base64url hash of any byte sequence
are encodings of one SHA-256 digest — base64url-decoding the hash yields the
32-byte digest and hex-decoding the 32-character key yields its first 16
bytes — and in every update persisted by ingestion, each platform entry's
stored key/hash pairs (bundle and every listed asset) stand in exactly this
relation to the file bytes read at ingestion time. -/
theorem hash_key_agreement :
    ∀ b : List Nat,
    (b64Decode (Base64URLEncode (sha256Bytes b)).data = sha256Bytes b ∧
      hexDecode (hexTrunc32 b).data = (sha256Bytes b).take 16 ∧
      (sha256Bytes b).length = 32) ∧
    (∀ (env : IngestEnv) (form : RegisterForm) (resp : HttpResponse) (u : Update)
        (md : UpdateMetadata) (pl : String) (pm : PlatformMetadata),
      RegisterUpdate env form = (resp, some u) → u.metadata = some md →
      (pl, pm) ∈ md.fileMetadata → keyHashOk env.bundleFs pm) := by
  intro b
  constructor
  · refine ⟨b64Decode_b64Chars _ (sha256Bytes_lt b), ?_, sha256Bytes_length b⟩
    show hexDecode ((hexChars (sha256Bytes b)).take 32) = (sha256Bytes b).take 16
    rw [show (32 : Nat) = 2 * 16 from rfl, hexChars_take]
    exact hexDecode_hexChars _ (fun x hx => sha256Bytes_lt b x (List.take_subset _ _ hx))
  · exact registerUpdate_keyHashOk

/-- The platform entry of the witness ingestion's `metadata.json`. -/
def witIngestPm : PlatformMetadata :=
  { bundle := "bundles/android-a.js", bundleUrl := "", bundleKey := "", bundleHash := ""
    assets := [] }

/-- The parsed metadata of the witness ingestion. -/
def witIngestMd : UpdateMetadata :=
  { fileMetadata := [("android", witIngestPm)], expoConfig := none }

/-- The witness ingestion environment: the bundle file is present and holds
the single byte `"x"`. -/
def witIngestEnv : IngestEnv :=
  { dbConnected := true, unzipOk := true
    bundleFs := [("bundles/android-a.js", [120])]
    parsedMetadata := some witIngestMd, parsedExpoConfig := none
    cloudinaryConnected := false, urlMap := [], generatedUpdateID := "gen-1", now := 99 }

/-- The witness ingestion form. -/
def witIngestForm : RegisterForm :=
  { projectSlug := "demo", runtimeVersion := "1", channel := none, platform := none
    rolloutPercentage := none, updateId := "", hasBundleFile := true }

/-- The metadata the witness ingestion persists. -/
def witPersistedMd : UpdateMetadata := hashPass witIngestEnv.bundleFs witIngestMd

/-- The record the witness ingestion persists. -/
def witPersisted : Update :=
  repoCreate 99
    { id := "", projectSlug := "demo", updateID := "gen-1", runtimeVersion := "1"
      channel := "production", platform := "all", bundlePath := "extracted"
      createdAt := 0, isActive := true, isRollback := false
      rolloutPercentage := 100, downloads := 0, metadata := some witPersistedMd }

/-- Witness for C7 at a concrete ingestion of one one-byte bundle. -/
theorem hash_key_agreement_witness :
    (RegisterUpdate witIngestEnv witIngestForm =
      (.json 201 (.obj [("message", .str "Update registered successfully")]),
        some witPersisted) ∧
      witPersisted.metadata = some witPersistedMd ∧
      ("android", hashPassPm witIngestEnv.bundleFs witIngestPm) ∈ witPersistedMd.fileMetadata) ∧
    keyHashOk witIngestEnv.bundleFs (hashPassPm witIngestEnv.bundleFs witIngestPm) :=
  ⟨⟨rfl, rfl, List.mem_singleton.mpr rfl⟩,
    (hash_key_agreement []).2 witIngestEnv witIngestForm _ witPersisted witPersistedMd
      "android" (hashPassPm witIngestEnv.bundleFs witIngestPm) rfl rfl
      (List.mem_singleton.mpr rfl)⟩

/-! ## Claim C8 — missing files during hashing -/

/-- The C8 ingestion environment: same parsed metadata as the C7 witness,
but the referenced bundle file is absent from disk. -/
def cexMissEnv : IngestEnv :=
  { dbConnected := true, unzipOk := true, bundleFs := []
    parsedMetadata := some witIngestMd, parsedExpoConfig := none
    cloudinaryConnected := false, urlMap := [], generatedUpdateID := "gen-2", now := 50 }

/-- The record that ingestion persists despite the missing file. -/
def cexMissPersisted : Update :=
  repoCreate 50
    { id := "", projectSlug := "demo", updateID := "gen-2", runtimeVersion := "1"
      channel := "production", platform := "all", bundlePath := "extracted"
      createdAt := 0, isActive := true, isRollback := false
      rolloutPercentage := 100, downloads := 0
      metadata := some (hashPass ([] : FileSystem) witIngestMd) }

/-- C8 counterexample: the launch bundle named by the parsed metadata is
missing from disk when its hash would be computed, yet the ingestion
replies 201 and inserts a record (whose bundle key and hash stay empty) —
the `os.ReadFile` failures in the hashing loop are silently skipped, so the
request does not fail and a record is persisted. -/
theorem ingestion_missing_file_cex :
    fsRead cexMissEnv.bundleFs witIngestPm.bundle = none ∧
    RegisterUpdate cexMissEnv witIngestForm =
      (.json 201 (.obj [("message", .str "Update registered successfully")]),
        some cexMissPersisted) ∧
    ("android", hashPassPm cexMissEnv.bundleFs witIngestPm) ∈
      (hashPass cexMissEnv.bundleFs witIngestMd).fileMetadata ∧
    (hashPassPm cexMissEnv.bundleFs witIngestPm).bundleKey = "" ∧
    (hashPassPm cexMissEnv.bundleFs witIngestPm).bundleHash = "" :=
  ⟨rfl, rfl, List.mem_singleton.mpr rfl, rfl, rfl⟩

/-- C8 (amended): a file missing from disk during hashing is *not* fatal —
whenever the form is valid and the unzip succeeded, the ingestion replies
201 and inserts the record, and the hashing pass leaves the key and hash of
any unreadable bundle or asset exactly as parsed from `metadata.json`. -/
theorem ingestion_skips_missing_files :
    (∀ (env : IngestEnv) (form : RegisterForm),
      env.dbConnected = true → form.projectSlug ≠ "" → form.runtimeVersion ≠ "" →
      form.hasBundleFile = true → env.unzipOk = true →
      ∃ u, RegisterUpdate env form =
        (.json 201 (.obj [("message", .str "Update registered successfully")]), some u)) ∧
    (∀ (fs : FileSystem) (pm : PlatformMetadata), fsRead fs pm.bundle = none →
      (hashPassPm fs pm).bundleKey = pm.bundleKey ∧
        (hashPassPm fs pm).bundleHash = pm.bundleHash) ∧
    (∀ (fs : FileSystem) (a : Asset), fsRead fs a.path = none →
      (hashPassAsset fs a).key = a.key ∧ (hashPassAsset fs a).hash = a.hash) := by
  refine ⟨?_, ?_, ?_⟩
  · intro env form h1 h2 h3 h4 h5
    unfold RegisterUpdate
    rw [if_neg (by simp [h1]), if_neg (by simp [h2, h3]), if_neg (by simp [h4]),
      if_neg (by simp [h5])]
    exact ⟨_, rfl⟩
  · intro fs pm h
    unfold hashPassPm
    simp [h]
  · intro fs a h
    unfold hashPassAsset
    simp [h]

/-- Witness for C8 at the concrete missing-file ingestion. -/
theorem ingestion_skips_missing_files_witness :
    (cexMissEnv.dbConnected = true ∧ witIngestForm.projectSlug ≠ "" ∧
      witIngestForm.runtimeVersion ≠ "" ∧ witIngestForm.hasBundleFile = true ∧
      cexMissEnv.unzipOk = true ∧ fsRead cexMissEnv.bundleFs witIngestPm.bundle = none) ∧
    (∃ u, RegisterUpdate cexMissEnv witIngestForm =
      (.json 201 (.obj [("message", .str "Update registered successfully")]), some u)) ∧
    (hashPassPm cexMissEnv.bundleFs witIngestPm).bundleKey = witIngestPm.bundleKey ∧
    (hashPassPm cexMissEnv.bundleFs witIngestPm).bundleHash = witIngestPm.bundleHash := by
  refine ⟨⟨rfl, by decide, by decide, rfl, rfl, rfl⟩, ?_, ?_⟩
  · exact ingestion_skips_missing_files.1 cexMissEnv witIngestForm rfl (by decide) (by decide)
      rfl rfl
  · exact ingestion_skips_missing_files.2.1 cexMissEnv.bundleFs witIngestPm rfl

/-! ## Claim C9 — rollback records have an empty project slug -/

/-- C9: every record built by the create-rollback endpoint has an empty
`projectSlug` (with platform `all`, active, rollback, rollout 100, no
metadata, no bundle path, no update id); `FindLatest` only ever returns
records whose `projectSlug` equals the queried slug, so for every non-empty
project slug it never returns such a rollback record. -/
theorem rollback_record_isolated :
    ∀ (now : Nat) (rv : String) (ch : Option String),
    ((CreateRollback now rv ch).projectSlug = "" ∧
      (CreateRollback now rv ch).updateID = "" ∧
      (CreateRollback now rv ch).runtimeVersion = rv ∧
      (CreateRollback now rv ch).platform = "all" ∧
      (CreateRollback now rv ch).isActive = true ∧
      (CreateRollback now rv ch).isRollback = true ∧
      (CreateRollback now rv ch).rolloutPercentage = 100 ∧
      (CreateRollback now rv ch).bundlePath = "" ∧
      (CreateRollback now rv ch).metadata = none) ∧
    (∀ (store : List Update) (slug rtv chn pf : String) (r : Update),
      slug ≠ "" → FindLatest store slug rtv chn pf = some r → r.projectSlug = slug) ∧
    (∀ (store : List Update) (slug rtv chn pf : String),
      slug ≠ "" → FindLatest store slug rtv chn pf ≠ some (CreateRollback now rv ch)) := by
  intro now rv ch
  have hSlugEq : ∀ (store : List Update) (slug rtv chn pf : String) (r : Update),
      slug ≠ "" → FindLatest store slug rtv chn pf = some r → r.projectSlug = slug := by
    intro store slug rtv chn pf r _ hr
    have hfilter := (List.mem_filter.mp (maxByCreatedAt_mem _ _ hr)).2
    simp only [matchesLatestFilter, Bool.and_eq_true, beq_iff_eq] at hfilter
    exact hfilter.1.1.1.1
  refine ⟨⟨rfl, rfl, rfl, rfl, rfl, rfl, rfl, rfl, rfl⟩, hSlugEq, ?_⟩
  intro store slug rtv chn pf hs hc
  exact hs (hSlugEq store slug rtv chn pf _ hs hc).symm

/-- Witness for C9 at a store holding one concrete rollback record. -/
theorem rollback_record_isolated_witness :
    ("demo" : String) ≠ "" ∧
    (CreateRollback 5 "1" none).projectSlug = "" ∧
    FindLatest [CreateRollback 5 "1" none] "demo" "1" "production" "android" ≠
      some (CreateRollback 5 "1" none) :=
  ⟨by decide, rfl,
    (rollback_record_isolated 5 "1" none).2.2 [CreateRollback 5 "1" none]
      "demo" "1" "production" "android" (by decide)⟩

/-! ## Claim C10 — the asset redirect short-circuit -/

/-- C10: whenever the `redirect` query parameter is non-empty, the asset
endpoint replies 302 to exactly that URL, for every value (including
absence, i.e. `""`) of `asset`, `platform` and `runtimeVersion` — the
parameter validation, the `..` path check and the file-existence check all
sit after the redirect branch and are skipped. -/
theorem asset_redirect_unconditional :
    ∀ (env : ServerEnv) (req : AssetsRequest), req.redirect ≠ "" →
    (AssetsHandle env req).response = .redirect 302 req.redirect := by
  intro env req h
  unfold AssetsHandle
  rw [if_pos h]

/-- An assets request with an empty asset name, an invalid platform, no
runtime version, and a redirect URL. -/
def witAssetsReq : AssetsRequest :=
  { asset := "", platform := "bogus", runtimeVersion := ""
    redirect := "https://cdn/x", updateId := "", isLaunchAsset := "" }

/-- Witness for C10 at that concrete request. -/
theorem asset_redirect_unconditional_witness :
    witAssetsReq.redirect ≠ "" ∧
    (AssetsHandle demoEnv witAssetsReq).response = .redirect 302 "https://cdn/x" :=
  ⟨by decide, asset_redirect_unconditional demoEnv witAssetsReq (by decide)⟩

end OTAShip
